import Mathlib

/-!
Verification of the HMA-snow post-processing pipeline (`HMASR_postprocess.py`).

The source computes catchment-wide daily mean Snow Water Equivalent (SWE)
series from yearly GeoTIFF pairs (SWE stack + non-seasonal-snow MASK).
This file shallowly embeds the pipeline:

* floating-point cell values are modelled as rationals (`ℚ`); the IEEE NaN
  that `xarray`'s `where`/`skipna` machinery produces is modelled explicitly
  as `none` in `Option ℚ` (a NaN cell is skipped by `mean`, an all-NaN slice
  has mean NaN);
* Python's `in` substring test and `str.endswith` are modelled on character
  lists; `os.listdir` results are passed in as an explicit listing;
* a GeoTIFF opened by `rasterio` is a `Raster`: band count, height, width,
  the affine transform entries `c`, `a` (x origin / pixel width) and
  `f`, `e` (y origin / pixel height), and the band data;
* `xarray` coordinate alignment (`join='inner'`, used by `DataArray.where`
  when the two arrays' spatial grids differ) is modelled by intersecting the
  coordinate lists and indexing each operand at the position of the shared
  coordinate value;
* `pandas.date_range` is modelled as the list of proleptic-Gregorian day
  ordinals from the start date to the end date inclusive;
* the `pandas.DataFrame` constructor's equal-length requirement and the
  `IndexError` of `day_value[0]` on an empty list are modelled as `Except`
  errors carrying the Python error text.
-/

namespace HMASR

/-- True when character list `p` is a prefix of `l`; helper for the model of
Python's substring test. -/
def chPre : List Char → List Char → Bool
  | [], _ => true
  | _ :: _, [] => false
  | a :: as, b :: bs => a == b && chPre as bs

/-- True when character list `p` occurs (contiguously) inside `l`. -/
def chSub (p : List Char) : List Char → Bool
  | [] => chPre p []
  | b :: bs => chPre p (b :: bs) || chSub p bs

/-- Model of Python's `sub in s` substring containment test. -/
def pyContains (sub s : String) : Bool := chSub sub.toList s.toList

/-- Model of Python's `s.endswith(suf)`. -/
def pyEndsWith (suf s : String) : Bool :=
  suf.toList == s.toList.drop (s.toList.length - suf.toList.length)

/-- A GeoTIFF as exposed by `rasterio.open`: `src.read()` gives a
`bands × height × width` stack (`data b i j`, row `i`, column `j`), and
`src.transform` carries the affine entries `c` (x origin), `a` (pixel
width), `f` (y origin) and `e` (pixel height, typically negative). -/
structure Raster where
  bands : ℕ
  height : ℕ
  width : ℕ
  c : ℚ
  a : ℚ
  f : ℚ
  e : ℚ
  data : ℕ → ℕ → ℕ → ℚ

/-- The name of the leading axis `geotiff2xr` attaches: `day` for SWE
stacks, `Non_seasonal_snow` for mask stacks. -/
inductive AxisName where
  | day
  | nonSeasonalSnow
deriving DecidableEq

/-- A labeled array as built by `geotiff2xr`: leading-axis name, its length
(`number_of_days = data.shape[0]`), its coordinate values, the spatial `y`/`x`
coordinate lists, and the cell values (`val b i j`: band, row, column). -/
structure XArr where
  axis : AxisName
  bands : ℕ
  bandCoords : List ℕ
  ys : List ℚ
  xs : List ℚ
  val : ℕ → ℕ → ℕ → ℚ

/-- Model of `np.linspace(start, stop, num)`: `num` evenly spaced points;
`num = 1` gives just `[start]` (numpy special-cases it to avoid 0/0). -/
def linspace (start stop : ℚ) (num : ℕ) : List ℚ :=
  if num = 1 then [start]
  else (List.range num).map (fun (i : ℕ) => start + (i : ℚ) * ((stop - start) / ((num - 1 : ℕ) : ℚ)))

/-- The x-coordinate list `geotiff2xr` derives:
`np.linspace(transform.c, transform.c + (width - 1) * transform.a, width)`. -/
def xCoordsOf (src : Raster) : List ℚ :=
  linspace src.c (src.c + ((src.width - 1 : ℕ) : ℚ) * src.a) src.width

/-- The y-coordinate list `geotiff2xr` derives:
`np.linspace(transform.f, transform.f + (height - 1) * transform.e, height)`. -/
def yCoordsOf (src : Raster) : List ℚ :=
  linspace src.f (src.f + ((src.height - 1 : ℕ) : ℚ) * src.e) src.height

/-- Model of `geotiff2xr(file_path)` with the opened raster passed
explicitly: a path containing `"SWE"` gives a `day`-axis array, otherwise a
path containing `"MASK"` gives a `Non_seasonal_snow`-axis array, otherwise
`None`.  Both branches use `number_of_days = data.shape[0]` (the band count)
and day coordinates `range(1, number_of_days + 1)`. -/
def geotiff2xr (file_path : String) (src : Raster) : Option XArr :=
  if pyContains "SWE" file_path then
    some ⟨AxisName.day, src.bands, List.range' 1 src.bands,
          yCoordsOf src, xCoordsOf src, src.data⟩
  else if pyContains "MASK" file_path then
    some ⟨AxisName.nonSeasonalSnow, src.bands, List.range' 1 src.bands,
          yCoordsOf src, xCoordsOf src, src.data⟩
  else none

/-- Model of `select_tif(directory, keyword1, keyword2)`, with the
`os.listdir(directory)` result passed explicitly: keep the entries ending in
`.tif` that contain both keywords, joined onto the directory, in listing
order. -/
def select_tif (directory : String) (listing : List String)
    (keyword1 keyword2 : String) : List String :=
  (listing.filter (fun file =>
      pyEndsWith ".tif" file && pyContains keyword1 file && pyContains keyword2 file)).map
    (fun file => directory ++ "/" ++ file)

/-- Model of `xarray`'s skip-NaN spatial mean of a slice: `none` cells (NaN)
count toward neither the sum nor the divisor; a slice with no non-NaN cell
has mean NaN (`none`). -/
def nanMean (cells : List (Option ℚ)) : Option ℚ :=
  let v := cells.filterMap id
  if v.isEmpty then none else some (v.sum / (v.length : ℚ))

/-- Model of Python's `round(x, 4)` on the exact rational value: round
`x * 10^4` to the nearest integer, ties to even, and divide back. -/
def pyRound4 (q : ℚ) : ℚ :=
  let s := q * 10000
  let n : ℤ := ⌊s⌋
  let r : ℚ := s - (n : ℚ)
  let m : ℤ :=
    if r < 1/2 then n else if 1/2 < r then n + 1 else if n % 2 = 0 then n else n + 1
  (m : ℚ) / 10000

/-- Coordinate intersection, keeping the first list's order: the index an
`xarray` inner join (`join='inner'`, used by `DataArray.where` under
coordinate alignment) produces for one spatial dimension. -/
def inter (cs ds : List ℚ) : List ℚ := cs.filter (fun v => decide (v ∈ ds))

/-- The list of cells of `swe.where(mask == 0)` for day `d` and mask layer
`l`, after aligning the two arrays on their `y`/`x` coordinates: one entry
per shared coordinate pair, `some` of the SWE value where the mask value at
that coordinate is `0`, NaN (`none`) where it is not.  Each operand is read
at the position of the shared coordinate value in its own coordinate
list. -/
def maskedCells (swe mask : XArr) (d l : ℕ) : List (Option ℚ) :=
  (inter swe.ys mask.ys).flatMap (fun yc =>
    (inter swe.xs mask.xs).map (fun xc =>
      if mask.val l (List.indexOf yc mask.ys) (List.indexOf xc mask.xs) = 0
      then some (swe.val d (List.indexOf yc swe.ys) (List.indexOf xc swe.xs))
      else none))

/-- Model of lines 161–163 of the source:
`swe.where(mask == 0).mean(dim=['x','y']).values.tolist()`.  The result of
`where` has dims `(day, y, x, Non_seasonal_snow)` (the mask's layer axis is
broadcast in last), so the spatial mean is a day-major list of per-layer
mean lists. -/
def maskedMean (swe mask : XArr) : List (List (Option ℚ)) :=
  (List.range swe.bands).map (fun d =>
    (List.range mask.bands).map (fun l => nanMean (maskedCells swe mask d l)))

/-- Model of the assembly loop (lines 167–169 of the source): for each day's
per-layer list `day_value`, append `round(day_value[0], 4)`; `day_value[0]`
on an empty list raises `IndexError` (`none` here).  `round` of NaN is
NaN. -/
def collectDays : List (List (Option ℚ)) → Option (List (Option ℚ))
  | [] => some []
  | day_value :: rest =>
    match day_value.head?, collectDays rest with
    | some v, some tl => some (Option.map pyRound4 v :: tl)
    | _, _ => none

/-- A calendar date, used only to anchor `pd.date_range('YYYY-10-01', ...)`
endpoints. -/
structure Date where
  year : ℕ
  month : ℕ
  day : ℕ

/-- Gregorian leap-year test. -/
def isLeap (y : ℕ) : Bool :=
  (decide (y % 4 = 0) && decide (y % 100 ≠ 0)) || decide (y % 400 = 0)

/-- `1` in a leap year, else `0`. -/
def leapN (y : ℕ) : ℕ := if isLeap y then 1 else 0

/-- Length of a Gregorian month. -/
def daysInMonth (y m : ℕ) : ℕ :=
  match m with
  | 1 => 31 | 2 => if isLeap y then 29 else 28 | 3 => 31 | 4 => 30
  | 5 => 31 | 6 => 30 | 7 => 31 | 8 => 31 | 9 => 30 | 10 => 31
  | 11 => 30 | 12 => 31 | _ => 0

/-- Days of year `y` strictly before month `m`. -/
def daysBeforeMonth (y m : ℕ) : ℕ :=
  ((List.range' 1 (m - 1)).map (daysInMonth y)).sum

/-- Days strictly before January 1 of year `y` in the proleptic Gregorian
calendar (valid for `y ≥ 1`). -/
def daysBeforeYear (y : ℕ) : ℕ :=
  365 * (y - 1) + (y - 1) / 4 + (y - 1) / 400 - (y - 1) / 100

/-- Day ordinal of a date: `pandas` timestamps are fixed-offset day counts,
so consecutive calendar days have consecutive ordinals. -/
def toOrdinal (dt : Date) : ℕ :=
  daysBeforeYear dt.year + daysBeforeMonth dt.year dt.month + dt.day

/-- Model of `pd.date_range(start, end, freq="D")`: every day ordinal from
`s` to `e` inclusive (empty when `e` precedes `s`). -/
def date_range (s e : Date) : List ℕ :=
  (List.range (toOrdinal e + 1 - toOrdinal s)).map (fun i => toOrdinal s + i)

/-- Model of `swe_means(input_dir, start_year, end_year)` (lines 147–175 of
the source).  `yearData y` stands for the result of the per-year
`select_tif` / `geotiff2xr` calls: `none` when either file list is empty
(the year is skipped with a console notice), otherwise the loaded
`(SWE, MASK)` array pair.  Per year, lines 161–163 append
`maskedMean`; lines 167–169 flatten the per-year lists in year order and
keep `round(day_value[0], 4)`; line 171 builds the date axis from October 1
of `start_year` to September 30 of `end_year + 1`; line 172's `DataFrame`
constructor zips values to dates positionally and raises `ValueError` when
the lengths differ. -/
def swe_means (start_year end_year : ℕ)
    (yearData : ℕ → Option (XArr × XArr)) : Except String (List (ℕ × Option ℚ)) :=
  let years := List.range' start_year (end_year + 1 - start_year)
  let swe_list := years.filterMap (fun year =>
    (yearData year).map (fun p => maskedMean p.1 p.2))
  match collectDays swe_list.flatten with
  | none => Except.error "IndexError: list index out of range"
  | some time_series_data =>
    let dates := date_range ⟨start_year, 10, 1⟩ ⟨end_year + 1, 9, 30⟩
    if time_series_data.length = dates.length then Except.ok (dates.zip time_series_data)
    else Except.error "ValueError: All arrays must be of the same length"

/-- Model of the per-year body of `plot_annual_swe` (lines 211–215 of the
source): the mask is loaded but the exclusion applied is
`swe.where(swe != -999)` — the sentinel cells become NaN — followed by the
skip-NaN mean over the `day` axis, giving one annual value per pixel
`(i, j)`. -/
def plot_annual_mean2d (swe mask : XArr) (i j : ℕ) : Option ℚ :=
  nanMean ((List.range swe.bands).map (fun d =>
    if swe.val d i j = -999 then none else some (swe.val d i j)))

/-! ### Coordinate derivation (claim C6) -/

/-- On the endpoints `geotiff2xr` passes, `np.linspace` is the exact linear
ramp `start + i * step`. -/
lemma linspace_ramp (c a : ℚ) (n i : ℕ) (hi : i < n) :
    (linspace c (c + ((n - 1 : ℕ) : ℚ) * a) n).getD i 0 = c + (i : ℚ) * a := by
  unfold linspace
  rcases n with _ | n
  · omega
  rcases n with _ | n
  · rw [if_pos rfl]
    interval_cases i
    simp
  · rw [if_neg (by omega)]
    have hlen : i < ((List.range (n + 2)).map
        (fun (i : ℕ) => c + (i : ℚ) * ((c + ((n + 2 - 1 : ℕ) : ℚ) * a - c) / ((n + 2 - 1 : ℕ) : ℚ)))).length := by
      simpa using hi
    rw [List.getD_eq_getElem _ _ hlen, List.getElem_map, List.getElem_range]
    have hne : ((n + 2 - 1 : ℕ) : ℚ) ≠ 0 := by
      rw [Nat.cast_ne_zero]; omega
    congr 1
    rw [add_sub_cancel_left, mul_div_cancel_left₀ _ hne]

/-- Claim C6: for every opened raster, the derived x-coordinates have exactly
`width` entries with `x[i] = origin_x + i * pixel_width`, the y-coordinates
have exactly `height` entries with `y[j] = origin_y + j * pixel_height`, the
first coordinates equal the transform origin, and a negative pixel height is
preserved as a strictly descending y-axis. -/
theorem C6_coordinate_ramps (p : String) (src : Raster) (arr : XArr)
    (h : geotiff2xr p src = some arr) :
    arr.xs.length = src.width ∧ arr.ys.length = src.height
    ∧ (∀ i, i < src.width → arr.xs.getD i 0 = src.c + (i : ℚ) * src.a)
    ∧ (∀ j, j < src.height → arr.ys.getD j 0 = src.f + (j : ℚ) * src.e)
    ∧ (0 < src.width → arr.xs.getD 0 0 = src.c)
    ∧ (0 < src.height → arr.ys.getD 0 0 = src.f)
    ∧ (src.e < 0 → ∀ j, j + 1 < src.height →
        arr.ys.getD (j + 1) 0 < arr.ys.getD j 0) := by
  have hcoords : arr.xs = xCoordsOf src ∧ arr.ys = yCoordsOf src := by
    unfold geotiff2xr at h
    split at h
    · cases h; exact ⟨rfl, rfl⟩
    · split at h
      · cases h; exact ⟨rfl, rfl⟩
      · cases h
  obtain ⟨hx, hy⟩ := hcoords
  have hxlen : arr.xs.length = src.width := by
    rw [hx]; unfold xCoordsOf linspace
    split
    · simp; omega
    · simp
  have hylen : arr.ys.length = src.height := by
    rw [hy]; unfold yCoordsOf linspace
    split
    · simp; omega
    · simp
  have hxi : ∀ i, i < src.width → arr.xs.getD i 0 = src.c + (i : ℚ) * src.a := by
    intro i hi; rw [hx]; exact linspace_ramp src.c src.a src.width i hi
  have hyj : ∀ j, j < src.height → arr.ys.getD j 0 = src.f + (j : ℚ) * src.e := by
    intro j hj; rw [hy]; exact linspace_ramp src.f src.e src.height j hj
  refine ⟨hxlen, hylen, hxi, hyj, ?_, ?_, ?_⟩
  · intro hw
    rw [hxi 0 hw]; simp
  · intro hh
    rw [hyj 0 hh]; simp
  · intro he j hj
    rw [hyj (j + 1) hj, hyj j (by omega)]
    have : ((j + 1 : ℕ) : ℚ) * src.e < (j : ℚ) * src.e := by
      apply mul_lt_mul_of_neg_right _ he
      exact_mod_cast Nat.lt_succ_self j
    linarith

/-- A concrete raster for witnesses: one band, 2 rows, 3 columns, origin
(10, 100), pixel size 2 by -5. -/
def rWit : Raster := ⟨1, 2, 3, 10, 2, 100, -5, fun _ _ _ => 0⟩

/-- The array `geotiff2xr` builds for `rWit` under an SWE path. -/
def arrWit : XArr :=
  ⟨AxisName.day, 1, List.range' 1 1, yCoordsOf rWit, xCoordsOf rWit, rWit.data⟩

/-- Witness for C6 at a concrete SWE raster. -/
theorem C6_coordinate_ramps_witness :
    arrWit.xs.length = rWit.width ∧ arrWit.ys.length = rWit.height
    ∧ (∀ i, i < rWit.width → arrWit.xs.getD i 0 = rWit.c + (i : ℚ) * rWit.a)
    ∧ (∀ j, j < rWit.height → arrWit.ys.getD j 0 = rWit.f + (j : ℚ) * rWit.e)
    ∧ (0 < rWit.width → arrWit.xs.getD 0 0 = rWit.c)
    ∧ (0 < rWit.height → arrWit.ys.getD 0 0 = rWit.f)
    ∧ (rWit.e < 0 → ∀ j, j + 1 < rWit.height →
        arrWit.ys.getD (j + 1) 0 < arrWit.ys.getD j 0) :=
  C6_coordinate_ramps "HMA_SWE_2000.tif" rWit arrWit rfl

/-! ### File selection (claim C7) -/

/-- The filter predicate of `select_tif`. -/
def tifMatch (keyword1 keyword2 : String) (file : String) : Bool :=
  pyEndsWith ".tif" file && pyContains keyword1 file && pyContains keyword2 file

/-- Claim C7: `select_tif` keeps exactly the `.tif` entries containing both
keywords (order-independent), in listing order (its result is the join of a
sublist of the listing), and returns the empty list — not an error — when
nothing matches. -/
theorem C7_select_tif (directory : String) (listing : List String)
    (keyword1 keyword2 : String) :
    select_tif directory listing keyword1 keyword2
        = select_tif directory listing keyword2 keyword1
    ∧ (∀ p, p ∈ select_tif directory listing keyword1 keyword2 ↔
        ∃ file, file ∈ listing ∧ pyEndsWith ".tif" file = true
          ∧ pyContains keyword1 file = true ∧ pyContains keyword2 file = true
          ∧ p = directory ++ "/" ++ file)
    ∧ (∃ sub, List.Sublist sub listing ∧ select_tif directory listing keyword1 keyword2
        = sub.map (fun file => directory ++ "/" ++ file))
    ∧ ((∀ file ∈ listing, tifMatch keyword1 keyword2 file = false) →
        select_tif directory listing keyword1 keyword2 = []) := by
  refine ⟨?_, ?_, ?_, ?_⟩
  · unfold select_tif
    congr 1
    apply List.filter_congr
    intro f _
    cases pyEndsWith ".tif" f <;> cases pyContains keyword1 f <;>
      cases pyContains keyword2 f <;> rfl
  · intro p
    simp only [select_tif, List.mem_map, List.mem_filter, Bool.and_eq_true]
    constructor
    · rintro ⟨f, ⟨hf, ⟨he, h1⟩, h2⟩, rfl⟩
      exact ⟨f, hf, he, h1, h2, rfl⟩
    · rintro ⟨f, hf, he, h1, h2, rfl⟩
      exact ⟨f, ⟨hf, ⟨he, h1⟩, h2⟩, rfl⟩
  · exact ⟨listing.filter (fun file => pyEndsWith ".tif" file
        && pyContains keyword1 file && pyContains keyword2 file),
      List.filter_sublist _, rfl⟩
  · intro hnone
    unfold select_tif
    rw [List.filter_eq_nil_iff.mpr, List.map_nil]
    intro f hf
    have := hnone f hf
    unfold tifMatch at this
    simp only [this]
    simp

/-! ### Filename classification (claim C5) -/

/-- Claim C5 as the code implements it: a path containing `"SWE"` yields the
day-axis array with band coordinates `1..N` (`N` = band count); a path
containing `"MASK"` but **not** `"SWE"` yields the non-seasonal-snow
classification array with the same indexing (the `SWE` branch is checked
first and wins when both substrings occur); a path containing neither
yields `none`, which is not an error. -/
theorem C5_classification (p : String) (src : Raster) :
    (pyContains "SWE" p = true →
      ∃ da, geotiff2xr p src = some da ∧ da.axis = AxisName.day
        ∧ da.bands = src.bands ∧ da.bandCoords.length = src.bands
        ∧ (∀ k, k < src.bands → da.bandCoords.getD k 0 = 1 + k))
    ∧ (pyContains "SWE" p = false → pyContains "MASK" p = true →
      ∃ ma, geotiff2xr p src = some ma ∧ ma.axis = AxisName.nonSeasonalSnow
        ∧ ma.bands = src.bands ∧ ma.bandCoords.length = src.bands
        ∧ (∀ k, k < src.bands → ma.bandCoords.getD k 0 = 1 + k))
    ∧ (pyContains "SWE" p = false → pyContains "MASK" p = false →
      geotiff2xr p src = none) := by
  have hco : ∀ k, k < src.bands → (List.range' 1 src.bands).getD k 0 = 1 + k := by
    intro k hk
    rw [List.getD_eq_getElem _ _ (by simpa using hk), List.getElem_range']
    omega
  refine ⟨?_, ?_, ?_⟩
  · intro hswe
    have hg : geotiff2xr p src = some ⟨AxisName.day, src.bands,
        List.range' 1 src.bands, yCoordsOf src, xCoordsOf src, src.data⟩ := by
      unfold geotiff2xr
      rw [if_pos hswe]
    exact ⟨_, hg, rfl, rfl, by simp, hco⟩
  · intro hnswe hmask
    have hg : geotiff2xr p src = some ⟨AxisName.nonSeasonalSnow, src.bands,
        List.range' 1 src.bands, yCoordsOf src, xCoordsOf src, src.data⟩ := by
      unfold geotiff2xr
      rw [if_neg (by simp [hnswe]), if_pos hmask]
    exact ⟨_, hg, rfl, rfl, by simp, hco⟩
  · intro hnswe hnmask
    unfold geotiff2xr
    rw [if_neg (by simp [hnswe]), if_neg (by simp [hnmask])]

/-- A small raster for the C5 theorems. -/
def rCls : Raster := ⟨3, 1, 1, 0, 1, 0, 1, fun _ _ _ => 0⟩

/-- Witness for C5 on concrete paths: an SWE path, a MASK-only path and an
unrecognized path, with the band coordinates evaluated. -/
theorem C5_classification_witness :
    ((geotiff2xr "HMA_SWE_2001.tif" rCls).map XArr.axis = some AxisName.day
      ∧ (geotiff2xr "HMA_MASK_2001.tif" rCls).map XArr.axis = some AxisName.nonSeasonalSnow
      ∧ geotiff2xr "readme_2001.txt" rCls = none)
    ∧ (∃ da, geotiff2xr "HMA_SWE_2001.tif" rCls = some da ∧ da.axis = AxisName.day
        ∧ da.bands = rCls.bands ∧ da.bandCoords.length = rCls.bands
        ∧ (∀ k, k < rCls.bands → da.bandCoords.getD k 0 = 1 + k)) :=
  ⟨⟨rfl, rfl, rfl⟩, (C5_classification "HMA_SWE_2001.tif" rCls).1 rfl⟩

/-- Counterexample to C5 as stated: when a raster's full path contains both
substrings — here a `MASK` file inside a directory whose name mentions SWE,
exactly what `os.path.join(directory, file)` produces — the name contains
`"MASK"` yet the builder classifies it as the SWE variable with a temporal
`day` axis, not as the classification axis. -/
theorem C5_counterexample :
    pyContains "MASK" "HMA_SWE_data/HMA_MASK_2000.tif" = true
    ∧ (geotiff2xr "HMA_SWE_data/HMA_MASK_2000.tif" rCls).map XArr.axis
        = some AxisName.day :=
  ⟨rfl, rfl⟩

/-! ### Sentinel exclusion in the annual pathway (claim C8) -/

/-- Helper: `filterMap id` turns an if-then-some-else-none map into a map
over the filtered list. -/
lemma filterMap_id_if_map {α : Type} (l : List α) (q : α → Prop) [DecidablePred q]
    (v : α → ℚ) :
    ((l.map (fun x => if q x then some (v x) else none)).filterMap id)
      = (l.filter (fun x => decide (q x))).map v := by
  induction l with
  | nil => rfl
  | cons x xs ih =>
    by_cases hx : q x <;>
      simp [List.filterMap_cons, List.filter_cons, hx, ih]

/-- Claim C8: in the annual pathway, the per-pixel annual mean excludes
exactly the cells whose SWE value is the literal sentinel `-999` — they
count toward neither the sum nor the divisor — and the result does not
depend on the MASK array at all: the sentinel filter is applied
independently of (never merged with) the daily pipeline's mask-based
filter. -/
theorem C8_sentinel_exclusion (swe mask : XArr) (i j : ℕ) :
    plot_annual_mean2d swe mask i j
      = (let kept := (List.range swe.bands).filter
            (fun d => decide (swe.val d i j ≠ -999));
         if kept = [] then none
         else some ((kept.map (fun d => swe.val d i j)).sum / (kept.length : ℚ)))
    ∧ (∀ mask2, plot_annual_mean2d swe mask i j = plot_annual_mean2d swe mask2 i j) := by
  refine ⟨?_, fun mask2 => rfl⟩
  unfold plot_annual_mean2d nanMean
  rw [show (fun d => if swe.val d i j = -999 then none else some (swe.val d i j))
      = (fun d => if swe.val d i j ≠ -999 then some (swe.val d i j) else none) by
    funext d; by_cases hd : swe.val d i j = -999 <;> simp [hd]]
  rw [filterMap_id_if_map (List.range swe.bands) (fun d => swe.val d i j ≠ -999)
    (fun d => swe.val d i j)]
  simp only [List.isEmpty_iff, List.length_map, List.map_eq_nil_iff]

/-! ### Calendar arithmetic for the water-year date axis (claims C2, C3) -/

/-- Days of January through September: 243 plus the leap day. -/
lemma daysBeforeMonth_ten (y : ℕ) : daysBeforeMonth y 10 = 273 + leapN y := by
  have : List.range' 1 9 = [1, 2, 3, 4, 5, 6, 7, 8, 9] := by decide
  unfold daysBeforeMonth leapN
  rw [show (10 - 1 : ℕ) = 9 from rfl, this]
  cases h : isLeap y <;> simp [daysInMonth, h]

/-- Days of January through August: 212 plus the leap day. -/
lemma daysBeforeMonth_nine (y : ℕ) : daysBeforeMonth y 9 = 243 + leapN y := by
  have : List.range' 1 8 = [1, 2, 3, 4, 5, 6, 7, 8] := by decide
  unfold daysBeforeMonth leapN
  rw [show (9 - 1 : ℕ) = 8 from rfl, this]
  cases h : isLeap y <;> simp [daysInMonth, h]

/-- Crossing a year boundary adds 365 days plus the leap day of the year
crossed. -/
lemma daysBeforeYear_succ (y : ℕ) (hy : 1 ≤ y) :
    daysBeforeYear (y + 1) = daysBeforeYear y + 365 + leapN y := by
  obtain ⟨n, rfl⟩ : ∃ n, y = n + 1 := ⟨y - 1, by omega⟩
  unfold daysBeforeYear leapN isLeap
  rw [show (n + 1 + 1 - 1 : ℕ) = n + 1 from rfl, show (n + 1 - 1 : ℕ) = n from rfl]
  rw [Nat.succ_div n 4, Nat.succ_div n 100, Nat.succ_div n 400]
  have hd4 : ((n + 1) % 4 = 0) ↔ (4 ∣ n + 1) := Nat.dvd_iff_mod_eq_zero.symm
  have hd100 : ((n + 1) % 100 = 0) ↔ (100 ∣ n + 1) := Nat.dvd_iff_mod_eq_zero.symm
  have hd400 : ((n + 1) % 400 = 0) ↔ (400 ∣ n + 1) := Nat.dvd_iff_mod_eq_zero.symm
  by_cases h400 : 400 ∣ n + 1
  · have h100 : 100 ∣ n + 1 := dvd_trans (by norm_num) h400
    have h4 : 4 ∣ n + 1 := dvd_trans (by norm_num) h400
    simp only [if_pos h400, if_pos h100, if_pos h4,
      hd400.mpr h400, hd100.mpr h100, hd4.mpr h4]
    simp
    omega
  · by_cases h100 : 100 ∣ n + 1
    · have h4 : 4 ∣ n + 1 := dvd_trans (by norm_num) h100
      have hm400 : ¬ (n + 1) % 400 = 0 := fun hc => h400 (hd400.mp hc)
      have hm100 : (n + 1) % 100 = 0 := hd100.mpr h100
      simp only [if_neg h400, if_pos h100, if_pos h4, hd4.mpr h4]
      simp [hm400, hm100]
      omega
    · by_cases h4 : 4 ∣ n + 1
      · have hm400 : ¬ (n + 1) % 400 = 0 := fun hc => h400 (hd400.mp hc)
        have hm100 : ¬ (n + 1) % 100 = 0 := fun hc => h100 (hd100.mp hc)
        simp only [if_neg h400, if_neg h100, if_pos h4, hd4.mpr h4]
        simp [hm400, hm100]
        omega
      · have hm400 : ¬ (n + 1) % 400 = 0 := fun hc => h400 (hd400.mp hc)
        have hm100 : ¬ (n + 1) % 100 = 0 := fun hc => h100 (hd100.mp hc)
        have hm4 : ¬ (n + 1) % 4 = 0 := fun hc => h4 (hd4.mp hc)
        simp only [if_neg h400, if_neg h100, if_neg h4]
        simp [hm400, hm100, hm4]
        omega

/-- September 30 is the day before October 1. -/
lemma sep30_next_oct1 (y : ℕ) :
    toOrdinal ⟨y, 9, 30⟩ + 1 = toOrdinal ⟨y, 10, 1⟩ := by
  unfold toOrdinal
  simp only [daysBeforeMonth_nine, daysBeforeMonth_ten]
  omega

/-- October 1 to October 1 of the next year is 365 days plus the leap day
of the (ending) calendar year that contains the February crossed. -/
lemma oct1_succ (y : ℕ) (hy : 1 ≤ y) :
    toOrdinal ⟨y + 1, 10, 1⟩ = toOrdinal ⟨y, 10, 1⟩ + 365 + leapN (y + 1) := by
  unfold toOrdinal
  simp only [daysBeforeMonth_ten, daysBeforeYear_succ y hy]
  omega

/-- Advancing October 1 by `n` water years accumulates the per-year day
counts `365 + leapN (y + 1)`. -/
lemma oct1_add (s n : ℕ) (hs : 1 ≤ s) :
    toOrdinal ⟨s + n, 10, 1⟩
      = toOrdinal ⟨s, 10, 1⟩
        + ((List.range' s n).map (fun y => 365 + leapN (y + 1))).sum := by
  induction n generalizing s with
  | zero => simp
  | succ n ih =>
    rw [List.range'_succ, List.map_cons, List.sum_cons,
      show s + (n + 1) = (s + 1) + n from by omega, ih (s + 1) (by omega),
      oct1_succ s hs]
    omega

/-- The number of leap markers over a year range is the count of leap years
in the shifted range. -/
lemma sum_leapN_range' (s n : ℕ) :
    ((List.range' s n).map (fun y => leapN (y + 1))).sum
      = ((List.range' (s + 1) n).filter (fun y => isLeap y)).length := by
  induction n generalizing s with
  | zero => simp
  | succ n ih =>
    rw [List.range'_succ, List.map_cons, List.sum_cons, ih (s + 1),
      List.range'_succ, List.filter_cons]
    unfold leapN
    cases h : isLeap (s + 1) <;> simp [h, show s + 1 + 1 = s + 2 from rfl] <;> omega

/-- Length of the water-year date axis from October 1 of `s` to September 30
of `e + 1`: the sum of per-year day counts, i.e. 365 per year plus the
number of leap years among `s+1 .. e+1`. -/
lemma date_range_length (s e : ℕ) (hs : 1 ≤ s) (hse : s ≤ e) :
    (date_range ⟨s, 10, 1⟩ ⟨e + 1, 9, 30⟩).length
      = ((List.range' s (e + 1 - s)).map (fun y => 365 + leapN (y + 1))).sum := by
  unfold date_range
  rw [List.length_map, List.length_range]
  have h1 : toOrdinal ⟨e + 1, 9, 30⟩ + 1 = toOrdinal ⟨e + 1, 10, 1⟩ := sep30_next_oct1 (e + 1)
  have h2 : toOrdinal ⟨s + (e + 1 - s), 10, 1⟩
      = toOrdinal ⟨s, 10, 1⟩
        + ((List.range' s (e + 1 - s)).map (fun y => 365 + leapN (y + 1))).sum :=
    oct1_add s (e + 1 - s) hs
  rw [show s + (e + 1 - s) = e + 1 from by omega] at h2
  omega

/-- Splitting the per-year day-count sum into the 365-day base and the
leap-day count. -/
lemma sum_wy_split (s n : ℕ) :
    ((List.range' s n).map (fun y => 365 + leapN (y + 1))).sum
      = n * 365 + ((List.range' (s + 1) n).filter (fun y => isLeap y)).length := by
  rw [List.sum_map_add, ← sum_leapN_range']
  congr 1
  induction n generalizing s with
  | zero => simp
  | succ n ih =>
    rw [List.range'_succ, List.map_cons, List.sum_cons, ih (s + 1)]
    omega

/-! ### Series assembly (claims C2, C3) -/

/-- `filterMap` over a list where the function is everywhere `some`. -/
lemma filterMap_all_some {α β : Type} (l : List α) (f : α → Option β) (g : α → β)
    (h : ∀ x ∈ l, f x = some (g x)) : l.filterMap f = l.map g := by
  induction l with
  | nil => rfl
  | cons x xs ih =>
    rw [List.filterMap_cons, h x (by simp), List.map_cons,
      ih (fun y hy => h y (by simp [hy]))]

/-- The assembly loop succeeds exactly on nonempty per-day lists, keeping
`round(day_value[0], 4)` of each. -/
lemma collectDays_eq (L : List (List (Option ℚ))) (h : ∀ dv ∈ L, dv ≠ []) :
    collectDays L = some (L.map (fun dv => Option.map pyRound4 dv.headI)) := by
  induction L with
  | nil => rfl
  | cons dv rest ih =>
    have hdv : dv ≠ [] := h dv (by simp)
    have hrest := ih (fun x hx => h x (by simp [hx]))
    cases dv with
    | nil => exact absurd rfl hdv
    | cons a as => simp [collectDays, hrest]

/-- The first of the per-layer means of a day is the layer-0 mean. -/
lemma headI_map_range {β : Type} [Inhabited β] (n : ℕ) (hn : 0 < n) (g : ℕ → β) :
    ((List.range n).map g).headI = g 0 := by
  obtain ⟨k, rfl⟩ : ∃ k, n = k + 1 := ⟨n - 1, by omega⟩
  rw [List.range_succ_eq_map]
  rfl

/-- Each element of `date_range` is the start ordinal advanced by its
position. -/
lemma date_range_getD (s e : Date) (i : ℕ) (hi : i < (date_range s e).length) :
    (date_range s e).getD i 0 = toOrdinal s + i := by
  unfold date_range at hi ⊢
  rw [List.getD_eq_getElem _ _ hi, List.getElem_map, List.getElem_range]

/-- Claim C2: with every year present and carrying its water-year band
count, `swe_means` zips the October-1-to-September-30 daily date axis
positionally against the per-year day means flattened in year order; the
series has one value per day of the axis, `(end_year + 1 - start_year) * 365`
plus one per leap year in the window, the axis starts at October 1 of
`start_year`, advances one day per position, and ends at September 30 of
`end_year + 1`. -/
theorem C2_series_assembly (start_year end_year : ℕ) (sw ms : ℕ → XArr)
    (yd : ℕ → Option (XArr × XArr))
    (hs : 1 ≤ start_year) (hse : start_year ≤ end_year)
    (hyd : ∀ y, start_year ≤ y → y ≤ end_year → yd y = some (sw y, ms y))
    (hbands : ∀ y, start_year ≤ y → y ≤ end_year → (sw y).bands = 365 + leapN (y + 1))
    (hmb : ∀ y, start_year ≤ y → y ≤ end_year → 0 < (ms y).bands) :
    ∃ values : List (Option ℚ),
      swe_means start_year end_year yd
        = Except.ok ((date_range ⟨start_year, 10, 1⟩ ⟨end_year + 1, 9, 30⟩).zip values)
      ∧ values = ((List.range' start_year (end_year + 1 - start_year)).map
          (fun y => (List.range (sw y).bands).map
            (fun d => Option.map pyRound4 (nanMean (maskedCells (sw y) (ms y) d 0))))).flatten
      ∧ values.length = (end_year + 1 - start_year) * 365
          + ((List.range' (start_year + 1) (end_year + 1 - start_year)).filter
              (fun y => isLeap y)).length
      ∧ (date_range ⟨start_year, 10, 1⟩ ⟨end_year + 1, 9, 30⟩).length = values.length
      ∧ (∀ i, i < values.length →
          (date_range ⟨start_year, 10, 1⟩ ⟨end_year + 1, 9, 30⟩).getD i 0
            = toOrdinal ⟨start_year, 10, 1⟩ + i)
      ∧ (date_range ⟨start_year, 10, 1⟩ ⟨end_year + 1, 9, 30⟩).getD (values.length - 1) 0
          = toOrdinal ⟨end_year + 1, 9, 30⟩ := by
  set years := List.range' start_year (end_year + 1 - start_year) with hyears
  have hmem : ∀ y ∈ years, start_year ≤ y ∧ y ≤ end_year := by
    intro y hy
    rw [hyears, List.mem_range'] at hy
    obtain ⟨i, hi, rfl⟩ := hy
    omega
  have hsl : years.filterMap (fun year => (yd year).map (fun p => maskedMean p.1 p.2))
      = years.map (fun y => maskedMean (sw y) (ms y)) := by
    apply filterMap_all_some
    intro y hy
    rw [hyd y (hmem y hy).1 (hmem y hy).2]
    rfl
  have hrows : ∀ dv ∈ (years.map (fun y => maskedMean (sw y) (ms y))).flatten, dv ≠ [] := by
    intro dv hdv
    rw [List.mem_flatten] at hdv
    obtain ⟨rows, hrows, hdvin⟩ := hdv
    rw [List.mem_map] at hrows
    obtain ⟨y, hy, rfl⟩ := hrows
    unfold maskedMean at hdvin
    rw [List.mem_map] at hdvin
    obtain ⟨d, _, rfl⟩ := hdvin
    have : 0 < (ms y).bands := hmb y (hmem y hy).1 (hmem y hy).2
    intro hcon
    have := congrArg List.length hcon
    simp at this
    omega
  have hcd := collectDays_eq _ hrows
  set values := ((years.map (fun y => maskedMean (sw y) (ms y))).flatten).map
    (fun dv => Option.map pyRound4 dv.headI) with hvalues
  have hvaleq : values = (years.map
      (fun y => (List.range (sw y).bands).map
        (fun d => Option.map pyRound4 (nanMean (maskedCells (sw y) (ms y) d 0))))).flatten := by
    rw [hvalues, List.map_flatten, List.map_map]
    congr 1
    apply List.map_congr_left
    intro y hy
    unfold maskedMean
    simp only [Function.comp, List.map_map]
    apply List.map_congr_left
    intro d _
    simp only [Function.comp]
    rw [headI_map_range _ (hmb y (hmem y hy).1 (hmem y hy).2)]
  have hsum : values.length
      = ((List.range' start_year (end_year + 1 - start_year)).map
          (fun y => 365 + leapN (y + 1))).sum := by
    rw [hvaleq, List.length_flatten, List.map_map]
    rw [← hyears]
    congr 1
    apply List.map_congr_left
    intro y hy
    simp only [Function.comp, List.length_map, List.length_range]
    exact hbands y (hmem y hy).1 (hmem y hy).2
  have hdlen : (date_range ⟨start_year, 10, 1⟩ ⟨end_year + 1, 9, 30⟩).length
      = values.length := by
    rw [hsum, date_range_length start_year end_year hs hse]
  have hok : swe_means start_year end_year yd
      = Except.ok ((date_range ⟨start_year, 10, 1⟩ ⟨end_year + 1, 9, 30⟩).zip values) := by
    simp only [swe_means]
    rw [← hyears, hsl, hcd]
    exact if_pos hdlen.symm
  refine ⟨values, hok, hvaleq, ?_, hdlen, ?_, ?_⟩
  · rw [hsum, sum_wy_split]
  · intro i hi
    exact date_range_getD _ _ i (by omega)
  · have hlen1 : 1 ≤ values.length := by
      rw [hsum]
      have : end_year + 1 - start_year = (end_year - start_year) + 1 := by omega
      rw [this, List.range'_succ, List.map_cons, List.sum_cons]
      omega
    rw [date_range_getD _ _ (values.length - 1) (by omega)]
    have h1 := sep30_next_oct1 (end_year + 1)
    have h2 := oct1_add start_year (end_year + 1 - start_year) hs
    rw [show start_year + (end_year + 1 - start_year) = end_year + 1 from by omega] at h2
    rw [hsum]
    omega

/-- A one-pixel 366-band SWE stack for the 1999 water year. -/
def swWit : XArr := ⟨AxisName.day, 366, List.range' 1 366, [0], [0], fun _ _ _ => 5⟩

/-- A one-pixel single-layer all-include mask. -/
def msWit : XArr := ⟨AxisName.nonSeasonalSnow, 1, [1], [0], [0], fun _ _ _ => 0⟩

/-- Witness for C2: one present year (1999; its water year has 366 days),
all hypotheses discharged concretely. -/
theorem C2_series_assembly_witness :
    ∃ values : List (Option ℚ),
      swe_means 1999 1999 (fun _ => some (swWit, msWit))
        = Except.ok ((date_range ⟨1999, 10, 1⟩ ⟨2000, 9, 30⟩).zip values)
      ∧ values = ((List.range' 1999 1).map
          (fun _ => (List.range swWit.bands).map
            (fun d => Option.map pyRound4 (nanMean (maskedCells swWit msWit d 0))))).flatten
      ∧ values.length = 1 * 365 + ((List.range' 2000 1).filter (fun y => isLeap y)).length
      ∧ (date_range ⟨1999, 10, 1⟩ ⟨2000, 9, 30⟩).length = values.length
      ∧ (∀ i, i < values.length →
          (date_range ⟨1999, 10, 1⟩ ⟨2000, 9, 30⟩).getD i 0 = toOrdinal ⟨1999, 10, 1⟩ + i)
      ∧ (date_range ⟨1999, 10, 1⟩ ⟨2000, 9, 30⟩).getD (values.length - 1) 0
          = toOrdinal ⟨2000, 9, 30⟩ :=
  C2_series_assembly 1999 1999 (fun _ => swWit) (fun _ => msWit)
    (fun _ => some (swWit, msWit)) (by omega) (by omega)
    (fun _ _ _ => rfl)
    (fun y h1 h2 => by
      have hy : y = 1999 := by omega
      subst hy
      decide)
    (fun _ _ _ => Nat.one_pos)

/-- Claim C3 as the code implements it: whenever the collected day values
and the generated date axis disagree in length — e.g. after a skipped
year — the `DataFrame` construction detects the mismatch and raises a
`ValueError`; the series is never silently zipped against misaligned
dates.  (The source defines no `SeriesAlignmentError`.) -/
theorem C3_length_mismatch_raises (start_year end_year : ℕ)
    (yd : ℕ → Option (XArr × XArr)) (tsd : List (Option ℚ))
    (hc : collectDays (((List.range' start_year (end_year + 1 - start_year)).filterMap
        (fun year => (yd year).map (fun p => maskedMean p.1 p.2))).flatten) = some tsd)
    (hne : tsd.length ≠ (date_range ⟨start_year, 10, 1⟩ ⟨end_year + 1, 9, 30⟩).length) :
    swe_means start_year end_year yd
      = Except.error "ValueError: All arrays must be of the same length" := by
  simp only [swe_means]
  rw [hc]
  exact if_neg hne

/-- A two-band one-pixel SWE stack (deliberately short). -/
def sweSkip : XArr := ⟨AxisName.day, 2, List.range' 1 2, [0], [0], fun _ _ _ => 5⟩

/-- A one-layer one-pixel mask whose value `3` excludes the pixel. -/
def maskSkip : XArr := ⟨AxisName.nonSeasonalSnow, 1, [1], [0], [0], fun _ _ _ => 3⟩

set_option maxRecDepth 40000 in
/-- Counterexample to C3 as stated: over 1999–2000 with the year 2000
missing, the mismatch is surfaced as a `ValueError` from the `DataFrame`
constructor, not as a `SeriesAlignmentError` (no such error exists in the
code). -/
theorem C3_counterexample :
    swe_means 1999 2000 (fun y => if y = 1999 then some (sweSkip, maskSkip) else none)
      = Except.error "ValueError: All arrays must be of the same length"
    ∧ "ValueError: All arrays must be of the same length" ≠ "SeriesAlignmentError" :=
  ⟨rfl, by decide⟩

set_option maxRecDepth 40000 in
/-- Witness for the amended C3 on a concrete skipped-year run. -/
theorem C3_length_mismatch_raises_witness :
    swe_means 2001 2002 (fun y => if y = 2001 then some (sweSkip, maskSkip) else none)
      = Except.error "ValueError: All arrays must be of the same length" :=
  C3_length_mismatch_raises 2001 2002
    (fun y => if y = 2001 then some (sweSkip, maskSkip) else none)
    [none, none] rfl (by decide)

/-! ### Masked aggregation under matching grids (claims C1, C10, C4, C9) -/

/-- Intersecting a coordinate list with itself keeps it unchanged. -/
lemma inter_self (l : List ℚ) : inter l l = l := by
  unfold inter
  rw [List.filter_eq_self]
  intro a ha
  simpa using ha

/-- Mapping a function of the index over a duplicate-free list equals
mapping it over the positions. -/
lemma map_indexOf_nodup {β : Type} (l : List ℚ) (hN : l.Nodup) (F : ℕ → β) :
    l.map (fun cv => F (List.indexOf cv l)) = (List.range l.length).map F := by
  apply List.ext_getElem
  · simp
  · intro n h1 h2
    simp only [List.getElem_map, List.getElem_range]
    congr 1
    have := List.get_indexOf hN ⟨n, by simpa using h1⟩
    simpa using this

/-- All `(row, column)` index pairs of an `h × w` grid, row-major. -/
def gridPositions (h w : ℕ) : List (ℕ × ℕ) :=
  (List.range h).flatMap (fun i => (List.range w).map (fun j => (i, j)))

/-- On equal, duplicate-free spatial grids the coordinate-aligned cell list
reads both arrays positionally. -/
lemma maskedCells_pos (swe mask : XArr) (hys : mask.ys = swe.ys)
    (hxs : mask.xs = swe.xs) (hyN : swe.ys.Nodup) (hxN : swe.xs.Nodup) (d l : ℕ) :
    maskedCells swe mask d l
      = (List.range swe.ys.length).flatMap (fun i =>
          (List.range swe.xs.length).map (fun j =>
            if mask.val l i j = 0 then some (swe.val d i j) else none)) := by
  unfold maskedCells
  rw [hys, hxs, inter_self, inter_self]
  rw [List.flatMap_def, List.flatMap_def]
  congr 1
  calc swe.ys.map (fun yc => swe.xs.map (fun xc =>
          if mask.val l (List.indexOf yc swe.ys) (List.indexOf xc swe.xs) = 0
          then some (swe.val d (List.indexOf yc swe.ys) (List.indexOf xc swe.xs))
          else none))
      = swe.ys.map (fun yc => (List.range swe.xs.length).map (fun j =>
          if mask.val l (List.indexOf yc swe.ys) j = 0
          then some (swe.val d (List.indexOf yc swe.ys) j) else none)) := by
        apply List.map_congr_left
        intro yc _
        exact map_indexOf_nodup swe.xs hxN (fun j =>
          if mask.val l (List.indexOf yc swe.ys) j = 0
          then some (swe.val d (List.indexOf yc swe.ys) j) else none)
    _ = (List.range swe.ys.length).map (fun i => (List.range swe.xs.length).map (fun j =>
          if mask.val l i j = 0 then some (swe.val d i j) else none)) :=
        map_indexOf_nodup swe.ys hyN (fun i => (List.range swe.xs.length).map (fun j =>
          if mask.val l i j = 0 then some (swe.val d i j) else none))

/-- The skip-NaN mean of an if-masked grid is the mean over exactly the
accepted positions: rejected positions enter neither the sum nor the
divisor, and with no accepted position the mean is NaN. -/
lemma nanMean_grid (h w : ℕ) (p : ℕ → ℕ → Prop) [∀ i j, Decidable (p i j)]
    (v : ℕ → ℕ → ℚ) :
    nanMean ((List.range h).flatMap (fun i => (List.range w).map (fun j =>
        if p i j then some (v i j) else none)))
      = (let incl := (gridPositions h w).filter (fun ij => decide (p ij.1 ij.2));
         if incl = [] then none
         else some ((incl.map (fun ij => v ij.1 ij.2)).sum / (incl.length : ℚ))) := by
  have key : ((gridPositions h w).filter (fun ij => decide (p ij.1 ij.2))).map
        (fun ij => v ij.1 ij.2)
      = (List.range h).flatMap (fun i =>
          ((List.range w).filter (fun j => decide (p i j))).map (v i)) := by
    unfold gridPositions
    rw [List.filter_flatMap, List.map_flatMap]
    congr 1
    funext i
    rw [List.filter_map, List.map_map]
    rfl
  have klen : ((gridPositions h w).filter (fun ij => decide (p ij.1 ij.2))).length
      = ((List.range h).flatMap (fun i =>
          ((List.range w).filter (fun j => decide (p i j))).map (v i))).length := by
    rw [← key, List.length_map]
  unfold nanMean
  rw [List.filterMap_flatMap]
  rw [show (fun i => List.filterMap id ((List.range w).map (fun j =>
        if p i j then some (v i j) else none)))
      = (fun i => ((List.range w).filter (fun j => decide (p i j))).map (v i)) from
    funext (fun i => filterMap_id_if_map (List.range w) (p i) (v i))]
  rw [← key]
  simp only [List.isEmpty_iff, List.map_eq_nil_iff, List.length_map]

/-- Claim C1: under a matching (equal, duplicate-free) spatial grid, entry
`(d, l)` of the masked aggregation is the arithmetic mean of exactly the SWE
values of day `d` at the positions where mask layer `l` is `0`; positions
with a non-zero mask value contribute to neither the sum nor the divisor
(masked mean, not zero-fill mean), and days are indexed in ascending
order. -/
theorem C1_masked_mean (swe mask : XArr)
    (hys : mask.ys = swe.ys) (hxs : mask.xs = swe.xs)
    (hyN : swe.ys.Nodup) (hxN : swe.xs.Nodup)
    (d l : ℕ) (hd : d < swe.bands) (hl : l < mask.bands) :
    ((maskedMean swe mask).getD d []).getD l (some 0)
      = (let incl := (gridPositions swe.ys.length swe.xs.length).filter
            (fun ij => decide (mask.val l ij.1 ij.2 = 0));
         if incl = [] then none
         else some ((incl.map (fun ij => swe.val d ij.1 ij.2)).sum / (incl.length : ℚ))) := by
  have h1 : (maskedMean swe mask).getD d [] = (List.range mask.bands).map
      (fun lyr => nanMean (maskedCells swe mask d lyr)) := by
    unfold maskedMean
    rw [List.getD_eq_getElem _ _ (by simpa using hd), List.getElem_map, List.getElem_range]
  rw [h1, List.getD_eq_getElem _ _ (by simpa using hl), List.getElem_map, List.getElem_range]
  rw [maskedCells_pos swe mask hys hxs hyN hxN d l]
  exact nanMean_grid swe.ys.length swe.xs.length
    (fun i j => mask.val l i j = 0) (fun i j => swe.val d i j)

/-- A one-band 2×2 SWE stack with values 1, 2 / 4, 8. -/
def sweW1 : XArr := ⟨AxisName.day, 1, [1], [0, 1], [0, 1], fun _ i j =>
  if i = 0 then (if j = 0 then 1 else 2) else (if j = 0 then 4 else 8)⟩

/-- A one-layer 2×2 mask excluding only the corner pixel `(1, 1)`. -/
def maskW1 : XArr := ⟨AxisName.nonSeasonalSnow, 1, [1], [0, 1], [0, 1], fun _ i j =>
  if i = 1 then (if j = 1 then 7 else 0) else 0⟩

/-- Witness for C1 on the 2×2 grid with one excluded pixel: the hypotheses
hold and the day-0 layer-0 mean is the three-pixel masked mean. -/
theorem C1_masked_mean_witness :
    maskW1.ys = sweW1.ys ∧ maskW1.xs = sweW1.xs
    ∧ sweW1.ys.Nodup ∧ sweW1.xs.Nodup
    ∧ ((maskedMean sweW1 maskW1).getD 0 []).getD 0 (some 0)
        = (let incl := (gridPositions sweW1.ys.length sweW1.xs.length).filter
              (fun ij => decide (maskW1.val 0 ij.1 ij.2 = 0));
           if incl = [] then none
           else some ((incl.map (fun ij => sweW1.val 0 ij.1 ij.2)).sum / (incl.length : ℚ))) :=
  ⟨rfl, rfl, by decide, by decide,
    C1_masked_mean sweW1 maskW1 rfl rfl (by decide) (by decide) 0 0
      (by decide) (by decide)⟩

/-- Claim C10: with `L` mask layers the masking broadcasts the SWE stack
over all of them — each day's entry of the aggregation carries `L` per-layer
means — but the assembly loop keeps only the first (`day_value[0]`, the
layer-0 mean): the collected series is the rounded layer-0 means, and any
second mask agreeing with the first on layer 0 (whatever its other layers
hold) yields the identical collected series. -/
theorem C10_layer_zero_only (swe mask mask2 : XArr)
    (h1 : 0 < mask.bands) (h2 : 0 < mask2.bands)
    (hys : mask2.ys = mask.ys) (hxs : mask2.xs = mask.xs)
    (hv : ∀ i j, mask2.val 0 i j = mask.val 0 i j) :
    (∀ d, d < swe.bands → ((maskedMean swe mask).getD d []).length = mask.bands)
    ∧ collectDays (maskedMean swe mask)
        = some ((List.range swe.bands).map
            (fun d => Option.map pyRound4 (nanMean (maskedCells swe mask d 0))))
    ∧ collectDays (maskedMean swe mask) = collectDays (maskedMean swe mask2) := by
  have hrowlen : ∀ (m : XArr) (d : ℕ), d < swe.bands →
      ((maskedMean swe m).getD d []).length = m.bands := by
    intro m d hd
    unfold maskedMean
    rw [List.getD_eq_getElem _ _ (by simpa using hd), List.getElem_map, List.getElem_range]
    simp
  have hcd : ∀ (m : XArr), 0 < m.bands → collectDays (maskedMean swe m)
      = some ((List.range swe.bands).map
          (fun d => Option.map pyRound4 (nanMean (maskedCells swe m d 0)))) := by
    intro m hm
    unfold maskedMean
    rw [collectDays_eq _ (by
      intro dv hdv
      rw [List.mem_map] at hdv
      obtain ⟨d, _, rfl⟩ := hdv
      intro hcon
      have := congrArg List.length hcon
      simp at this
      omega)]
    congr 1
    rw [List.map_map]
    apply List.map_congr_left
    intro d _
    simp only [Function.comp]
    rw [headI_map_range _ hm]
  have hcells : ∀ d, maskedCells swe mask2 d 0 = maskedCells swe mask d 0 := by
    intro d
    unfold maskedCells
    rw [hys, hxs, List.flatMap_def, List.flatMap_def]
    congr 1
    apply List.map_congr_left
    intro yc _
    apply List.map_congr_left
    intro xc _
    rw [hv]
  refine ⟨hrowlen mask, hcd mask h1, ?_⟩
  rw [hcd mask h1, hcd mask2 h2]
  congr 1
  apply List.map_congr_left
  intro d _
  rw [hcells d]

/-- A two-layer 2×2 mask whose layer 0 agrees with `maskW1` and whose layer
1 excludes everything. -/
def maskW2 : XArr := ⟨AxisName.nonSeasonalSnow, 2, List.range' 1 2, [0, 1], [0, 1],
  fun l i j => if l = 0 then maskW1.val 0 i j else 7⟩

/-- Witness for C10: the 2×2 example with a one-layer mask and a two-layer
mask agreeing on layer 0. -/
theorem C10_layer_zero_only_witness :
    (∀ d, d < sweW1.bands → ((maskedMean sweW1 maskW1).getD d []).length = maskW1.bands)
    ∧ collectDays (maskedMean sweW1 maskW1)
        = some ((List.range sweW1.bands).map
            (fun d => Option.map pyRound4 (nanMean (maskedCells sweW1 maskW1 d 0))))
    ∧ collectDays (maskedMean sweW1 maskW1) = collectDays (maskedMean sweW1 maskW2) :=
  C10_layer_zero_only sweW1 maskW1 maskW2 (by decide) (by decide) rfl rfl
    (fun _ _ => rfl)

/-- Claim C4, amended to the code's behavior: a `(day, layer)` slice in
which the mask excludes every pixel has NaN (`none`) as its mean — there is
no distinct sentinel, and (see the counterexample) the NaN is rounded and
carried into the final series without any signal. -/
theorem C4_allmasked_nan (swe mask : XArr) (d l : ℕ)
    (hd : d < swe.bands) (hl : l < mask.bands)
    (hall : ∀ i j, mask.val l i j ≠ 0) :
    ((maskedMean swe mask).getD d []).getD l (some 0) = none := by
  have h1 : (maskedMean swe mask).getD d [] = (List.range mask.bands).map
      (fun lyr => nanMean (maskedCells swe mask d lyr)) := by
    unfold maskedMean
    rw [List.getD_eq_getElem _ _ (by simpa using hd), List.getElem_map, List.getElem_range]
  rw [h1, List.getD_eq_getElem _ _ (by simpa using hl), List.getElem_map, List.getElem_range]
  unfold nanMean
  have hnil : (maskedCells swe mask d l).filterMap id = [] := by
    rw [List.filterMap_eq_nil_iff]
    intro cell hcell
    unfold maskedCells at hcell
    rw [List.mem_flatMap] at hcell
    obtain ⟨yc, _, hcell⟩ := hcell
    rw [List.mem_map] at hcell
    obtain ⟨xc, _, rfl⟩ := hcell
    rw [if_neg (hall _ _)]
    rfl
  rw [hnil]
  rfl

/-- A 365-band one-pixel SWE stack with constant value 5. -/
def sweAll : XArr := ⟨AxisName.day, 365, List.range' 1 365, [0], [0], fun _ _ _ => 5⟩

/-- A mask whose single layer excludes the only pixel (value 7). -/
def maskAll : XArr := ⟨AxisName.nonSeasonalSnow, 1, [1], [0], [0], fun _ _ _ => 7⟩

/-- Witness for the amended C4: the all-excluded day's mean is NaN. -/
theorem C4_allmasked_nan_witness :
    ((maskedMean sweAll maskAll).getD 0 []).getD 0 (some 0) = none :=
  C4_allmasked_nan sweAll maskAll 0 0 (by decide) (by decide)
    (fun _ _ => show (7 : ℚ) ≠ 0 by norm_num)

set_option maxRecDepth 40000 in
/-- Counterexample to C4 as stated: with every pixel excluded on every day,
`swe_means` completes without any signal and the final series is the date
axis zipped against 365 NaN (`none`) values — NaN is silently propagated,
no sentinel distinct from it is produced. -/
theorem C4_counterexample :
    swe_means 2000 2000 (fun _ => some (sweAll, maskAll))
      = Except.ok ((date_range ⟨2000, 10, 1⟩ ⟨2001, 9, 30⟩).zip
          (List.replicate 365 none)) := rfl

/-- 365-band SWE stack on a 2×2 grid. -/
def sweBig : XArr := ⟨AxisName.day, 365, List.range' 1 365, [0, 1], [0, 1], fun _ _ _ => 5⟩

/-- One-layer mask on a 1×1 grid (its value 7 excludes the pixel). -/
def maskSmall : XArr := ⟨AxisName.nonSeasonalSnow, 1, [1], [0], [0], fun _ _ _ => 7⟩

/-- Claim C9, amended to the code's behavior: `swe_means` performs no
spatial-shape check at all — its only outcomes are a successful series, the
assembly `IndexError`, or the `DataFrame` length `ValueError`; no
`ShapeMismatchError` exists, and (see the counterexample) mismatched grids
are silently aligned on their shared coordinates during masking. -/
theorem C9_no_shape_check (start_year end_year : ℕ)
    (yd : ℕ → Option (XArr × XArr)) :
    (∃ out, swe_means start_year end_year yd = Except.ok out)
    ∨ swe_means start_year end_year yd
        = Except.error "IndexError: list index out of range"
    ∨ swe_means start_year end_year yd
        = Except.error "ValueError: All arrays must be of the same length" := by
  rcases hcol : collectDays (((List.range' start_year (end_year + 1 - start_year)).filterMap
      (fun year => (yd year).map (fun p => maskedMean p.1 p.2))).flatten) with _ | tsd
  · right; left
    simp only [swe_means, hcol]
  · by_cases hlen : tsd.length
        = (date_range ⟨start_year, 10, 1⟩ ⟨end_year + 1, 9, 30⟩).length
    · left
      exact ⟨(date_range ⟨start_year, 10, 1⟩ ⟨end_year + 1, 9, 30⟩).zip tsd, by
        simp only [swe_means, hcol]
        exact if_pos hlen⟩
    · right; right
      simp only [swe_means, hcol]
      exact if_neg hlen

set_option maxRecDepth 40000 in
/-- Counterexample to C9 as stated: a 2×2 SWE grid paired with a 1×1 mask
grid runs to a successful series — the mismatch is not detected, nothing
like a `ShapeMismatchError` is raised, and masking silently proceeds on the
single shared coordinate pair. -/
theorem C9_counterexample :
    sweBig.ys.length = 2 ∧ maskSmall.ys.length = 1
    ∧ sweBig.xs.length = 2 ∧ maskSmall.xs.length = 1
    ∧ swe_means 2000 2000 (fun _ => some (sweBig, maskSmall))
        = Except.ok ((date_range ⟨2000, 10, 1⟩ ⟨2001, 9, 30⟩).zip
            (List.replicate 365 none)) :=
  ⟨rfl, rfl, rfl, rfl, rfl⟩

end HMASR
